import Mathlib

/-!
Shallow embedding of `src/exports/roo-code.d.ts` from the Roo-Code repository,
together with proofs about the declared contract: the closed string unions
(`ClineAsk`, `ClineSay`, `SecretKey`, `GlobalStateKey`), the message and
token-usage record shapes, the event contract (`RooCodeEvents`) and the API
method signatures (`RooCodeAPI`).
-/

namespace RooCode

/-- The members of the `ClineAsk` string-literal union, as an enumeration,
in source order. -/
inductive ClineAsk
  | followup
  | command
  | command_output
  | completion_result
  | tool
  | api_req_failed
  | resume_task
  | resume_completed_task
  | mistake_limit_reached
  | browser_action_launch
  | use_mcp_server
  | finishTask
  deriving DecidableEq

/-- The string literal carried by each `ClineAsk` member. -/
def ClineAsk.toTag : ClineAsk → String
  | .followup => "followup"
  | .command => "command"
  | .command_output => "command_output"
  | .completion_result => "completion_result"
  | .tool => "tool"
  | .api_req_failed => "api_req_failed"
  | .resume_task => "resume_task"
  | .resume_completed_task => "resume_completed_task"
  | .mistake_limit_reached => "mistake_limit_reached"
  | .browser_action_launch => "browser_action_launch"
  | .use_mcp_server => "use_mcp_server"
  | .finishTask => "finishTask"

/-- All members of `ClineAsk`, in source order. -/
def allClineAsk : List ClineAsk :=
  [.followup, .command, .command_output, .completion_result, .tool, .api_req_failed,
   .resume_task, .resume_completed_task, .mistake_limit_reached, .browser_action_launch,
   .use_mcp_server, .finishTask]

/-- The string literals of the `ClineAsk` union, in source order. -/
def clineAskValues : List String :=
  ["followup", "command", "command_output", "completion_result", "tool", "api_req_failed",
   "resume_task", "resume_completed_task", "mistake_limit_reached", "browser_action_launch",
   "use_mcp_server", "finishTask"]

/-- The members of the `ClineSay` string-literal union, as an enumeration,
in source order. -/
inductive ClineSay
  | task
  | error
  | api_req_started
  | api_req_finished
  | api_req_retried
  | api_req_retry_delayed
  | api_req_deleted
  | text
  | reasoning
  | completion_result
  | user_feedback
  | user_feedback_diff
  | command_output
  | tool
  | shell_integration_warning
  | browser_action
  | browser_action_result
  | command
  | mcp_server_request_started
  | mcp_server_response
  | new_task_started
  | new_task
  | checkpoint_saved
  | rooignore_error
  deriving DecidableEq

/-- The string literal carried by each `ClineSay` member. -/
def ClineSay.toTag : ClineSay → String
  | .task => "task"
  | .error => "error"
  | .api_req_started => "api_req_started"
  | .api_req_finished => "api_req_finished"
  | .api_req_retried => "api_req_retried"
  | .api_req_retry_delayed => "api_req_retry_delayed"
  | .api_req_deleted => "api_req_deleted"
  | .text => "text"
  | .reasoning => "reasoning"
  | .completion_result => "completion_result"
  | .user_feedback => "user_feedback"
  | .user_feedback_diff => "user_feedback_diff"
  | .command_output => "command_output"
  | .tool => "tool"
  | .shell_integration_warning => "shell_integration_warning"
  | .browser_action => "browser_action"
  | .browser_action_result => "browser_action_result"
  | .command => "command"
  | .mcp_server_request_started => "mcp_server_request_started"
  | .mcp_server_response => "mcp_server_response"
  | .new_task_started => "new_task_started"
  | .new_task => "new_task"
  | .checkpoint_saved => "checkpoint_saved"
  | .rooignore_error => "rooignore_error"

/-- All members of `ClineSay`, in source order. -/
def allClineSay : List ClineSay :=
  [.task, .error, .api_req_started, .api_req_finished, .api_req_retried,
   .api_req_retry_delayed, .api_req_deleted, .text, .reasoning, .completion_result,
   .user_feedback, .user_feedback_diff, .command_output, .tool,
   .shell_integration_warning, .browser_action, .browser_action_result, .command,
   .mcp_server_request_started, .mcp_server_response, .new_task_started, .new_task,
   .checkpoint_saved, .rooignore_error]

/-- The string literals of the `ClineSay` union, in source order. -/
def clineSayValues : List String :=
  ["task", "error", "api_req_started", "api_req_finished", "api_req_retried",
   "api_req_retry_delayed", "api_req_deleted", "text", "reasoning", "completion_result",
   "user_feedback", "user_feedback_diff", "command_output", "tool",
   "shell_integration_warning", "browser_action", "browser_action_result", "command",
   "mcp_server_request_started", "mcp_server_response", "new_task_started", "new_task",
   "checkpoint_saved", "rooignore_error"]

/-- The string literals of the `SecretKey` union, in source order. -/
def secretKeys : List String :=
  ["apiKey", "glamaApiKey", "openRouterApiKey", "awsAccessKey", "awsSecretKey",
   "awsSessionToken", "openAiApiKey", "geminiApiKey", "openAiNativeApiKey",
   "deepSeekApiKey", "mistralApiKey", "unboundApiKey", "requestyApiKey"]

/-- The string literals of the `GlobalStateKey` union, in source order. -/
def globalStateKeys : List String :=
  ["apiProvider", "apiModelId", "glamaModelId", "glamaModelInfo", "awsRegion",
   "awsUseCrossRegionInference", "awsProfile", "awsUseProfile", "awsCustomArn",
   "vertexKeyFile", "vertexJsonCredentials", "vertexProjectId", "vertexRegion",
   "lastShownAnnouncementId", "customInstructions", "alwaysAllowReadOnly",
   "alwaysAllowWrite", "alwaysAllowExecute", "alwaysAllowBrowser", "alwaysAllowMcp",
   "alwaysAllowModeSwitch", "alwaysAllowSubtasks", "taskHistory", "openAiBaseUrl",
   "openAiModelId", "openAiCustomModelInfo", "openAiUseAzure", "ollamaModelId",
   "ollamaBaseUrl", "lmStudioModelId", "lmStudioBaseUrl", "anthropicBaseUrl",
   "modelMaxThinkingTokens", "azureApiVersion", "openAiStreamingEnabled",
   "openRouterModelId", "openRouterModelInfo", "openRouterBaseUrl",
   "openRouterSpecificProvider", "openRouterUseMiddleOutTransform",
   "googleGeminiBaseUrl", "allowedCommands", "ttsEnabled", "ttsSpeed", "soundEnabled",
   "soundVolume", "diffEnabled", "enableCheckpoints", "checkpointStorage",
   "browserViewportSize", "screenshotQuality", "remoteBrowserHost",
   "fuzzyMatchThreshold", "writeDelayMs", "terminalOutputLineLimit",
   "terminalShellIntegrationTimeout", "mcpEnabled", "enableMcpServerCreation",
   "alwaysApproveResubmit", "requestDelaySeconds", "rateLimitSeconds",
   "currentApiConfigName", "listApiConfigMeta", "vsCodeLmModelSelector", "mode",
   "modeApiConfigs", "customModePrompts", "customSupportPrompts",
   "enhancementApiConfigId", "experiments", "autoApprovalEnabled",
   "enableCustomModeCreation", "customModes", "unboundModelId", "requestyModelId",
   "requestyModelInfo", "unboundModelInfo", "modelTemperature", "modelMaxTokens",
   "mistralCodestralUrl", "maxOpenTabsContext", "maxWorkspaceFiles",
   "browserToolEnabled", "lmStudioSpeculativeDecodingEnabled", "lmStudioDraftModelId",
   "telemetrySetting", "showRooIgnoredFiles", "remoteBrowserEnabled", "language",
   "maxReadFileLine", "fakeAi"]

/-- ConfigurationKey is declared in the source as `GlobalStateKey | SecretKey`. -/
def configurationKeys : List String :=
  globalStateKeys ++ secretKeys

/-- The TokenUsage interface. TS `number` fields are embedded as rationals and
optional fields as `Option`; field order follows the source. -/
structure TokenUsage where
  totalTokensIn : ℚ
  totalTokensOut : ℚ
  totalCacheWrites : Option ℚ
  totalCacheReads : Option ℚ
  totalCost : ℚ
  contextTokens : ℚ

/-- The two values of the `type` field of ClineMessage (`"ask" | "say"`). -/
inductive MessageType
  | ask
  | say
  deriving DecidableEq

/-- The ClineMessage interface. The parameter `ToolProgressStatus` stands for the
type of that name referenced by the `progressStatus` field but neither declared
nor imported by the file; `Unknown` stands for the TS `unknown` value type of the
`checkpoint` record. The source field written `partial` is a Lean keyword and is
embedded as `isPartial`. -/
structure ClineMessage (ToolProgressStatus Unknown : Type) where
  ts : ℚ
  type : MessageType
  ask : Option ClineAsk
  say : Option ClineSay
  text : Option String
  images : Option (List String)
  isPartial : Option Bool
  reasoning : Option String
  conversationHistoryIndex : Option ℚ
  checkpoint : Option (List (String × Unknown))
  progressStatus : Option ToolProgressStatus

/-- The `action` field of the `message` event payload (`"created" | "updated"`). -/
inductive MessageAction
  | created
  | updated
  deriving DecidableEq

/-- The single object argument of the `message` event. -/
structure MessageEventPayload (ToolProgressStatus Unknown : Type) where
  taskId : String
  action : MessageAction
  message : ClineMessage ToolProgressStatus Unknown

/-- The RooCodeEvents interface: one constructor per declared event, carrying
exactly the payload tuple of the source, in source order. -/
inductive RooCodeEvent (ToolProgressStatus Unknown : Type)
  | message (payload : MessageEventPayload ToolProgressStatus Unknown)
  | taskStarted (taskId : String)
  | taskPaused (taskId : String)
  | taskUnpaused (taskId : String)
  | taskAskResponded (taskId : String)
  | taskAborted (taskId : String)
  | taskSpawned (taskId : String) (childTaskId : String)
  | taskCompleted (taskId : String) (usage : TokenUsage)
  | taskTokenUsageUpdated (taskId : String) (usage : TokenUsage)

/-- The event name of a RooCodeEvent. -/
def RooCodeEvent.name {P U : Type} : RooCodeEvent P U → String
  | .message _ => "message"
  | .taskStarted _ => "taskStarted"
  | .taskPaused _ => "taskPaused"
  | .taskUnpaused _ => "taskUnpaused"
  | .taskAskResponded _ => "taskAskResponded"
  | .taskAborted _ => "taskAborted"
  | .taskSpawned _ _ => "taskSpawned"
  | .taskCompleted _ _ => "taskCompleted"
  | .taskTokenUsageUpdated _ _ => "taskTokenUsageUpdated"

/-- The declared event names, in source order. -/
def eventNames : List String :=
  ["message", "taskStarted", "taskPaused", "taskUnpaused", "taskAskResponded",
   "taskAborted", "taskSpawned", "taskCompleted", "taskTokenUsageUpdated"]

/-- The number of elements in the payload tuple of a RooCodeEvent. -/
def RooCodeEvent.arity {P U : Type} : RooCodeEvent P U → Nat
  | .message _ => 1
  | .taskStarted _ => 1
  | .taskPaused _ => 1
  | .taskUnpaused _ => 1
  | .taskAskResponded _ => 1
  | .taskAborted _ => 1
  | .taskSpawned _ _ => 2
  | .taskCompleted _ _ => 2
  | .taskTokenUsageUpdated _ _ => 2

/-- The taskId an event is attributed to: the first tuple element, or the taskId
field of the single object argument of the `message` event. -/
def RooCodeEvent.taskId {P U : Type} : RooCodeEvent P U → String
  | .message p => p.taskId
  | .taskStarted tid => tid
  | .taskPaused tid => tid
  | .taskUnpaused tid => tid
  | .taskAskResponded tid => tid
  | .taskAborted tid => tid
  | .taskSpawned tid _ => tid
  | .taskCompleted tid _ => tid
  | .taskTokenUsageUpdated tid _ => tid

/-- Marker for a TS `Promise` return type: the method returns asynchronously. -/
structure Promise (α : Type) where
  resolved : α

/-- The RooCodeAPI interface as a record of operations. Optional parameters are
`Option` arguments; `setConfiguration` takes a partial mapping from string keys
to untyped values. -/
structure RooCodeAPI (ToolProgressStatus Unknown : Type) where
  startNewTask : Option String → Option (List String) → Promise String
  getCurrentTaskStack : Unit → List String
  clearCurrentTask : Option String → Promise Unit
  cancelCurrentTask : Unit → Promise Unit
  sendMessage : Option String → Option (List String) → Promise Unit
  pressPrimaryButton : Unit → Promise Unit
  pressSecondaryButton : Unit → Promise Unit
  setConfiguration : List (String × Unknown) → Promise Unit
  isReady : Unit → Bool
  getMessages : String → List (ClineMessage ToolProgressStatus Unknown)
  getTokenUsage : String → TokenUsage
  log : String → Unit

/-- The TS return type of a method: either a promise of t or a plain type t. -/
inductive TSReturn
  | promiseOf (t : String)
  | plain (t : String)
  deriving DecidableEq

/-- Name and declared return type of each RooCodeAPI method, in source order. -/
def rooCodeAPIMethods : List (String × TSReturn) :=
  [("startNewTask", .promiseOf "string"),
   ("getCurrentTaskStack", .plain "string[]"),
   ("clearCurrentTask", .promiseOf "void"),
   ("cancelCurrentTask", .promiseOf "void"),
   ("sendMessage", .promiseOf "void"),
   ("pressPrimaryButton", .promiseOf "void"),
   ("pressSecondaryButton", .promiseOf "void"),
   ("setConfiguration", .promiseOf "void"),
   ("isReady", .plain "boolean"),
   ("getMessages", .plain "ClineMessage[]"),
   ("getTokenUsage", .plain "TokenUsage"),
   ("log", .plain "void")]

/-- The value names imported by the declaration file: the single first line of
the file brings in only EventEmitter from the events module. -/
def importedNames : List String :=
  ["EventEmitter"]

/-- The type names exported by the declaration file, in source order. -/
def declaredTypeNames : List String :=
  ["TokenUsage", "RooCodeEvents", "RooCodeAPI", "ClineAsk", "ClineSay",
   "ClineMessage", "SecretKey", "GlobalStateKey", "ConfigurationKey",
   "ConfigurationValues"]

/-- The named types referenced by the fields of ClineMessage. -/
def clineMessageFieldTypeRefs : List String :=
  ["ClineAsk", "ClineSay", "ToolProgressStatus"]

/-- Modelled from the spec: the engine emitting taskTokenUsageUpdated events is
not part of this declaration file. Per the spec, token counts, cache counts and
cost are cumulative within a task, so one update supplies the increments added
to the previous totals, plus the current context size. -/
structure UsageDelta where
  dTokensIn : ℚ
  dTokensOut : ℚ
  dCacheWrites : ℚ
  dCacheReads : ℚ
  dCost : ℚ
  newContextTokens : ℚ

/-- All components of a usage update are non-negative. -/
abbrev UsageDelta.Nonneg (d : UsageDelta) : Prop :=
  0 ≤ d.dTokensIn ∧ 0 ≤ d.dTokensOut ∧ 0 ≤ d.dCacheWrites ∧
  0 ≤ d.dCacheReads ∧ 0 ≤ d.dCost ∧ 0 ≤ d.newContextTokens

/-- Modelled from the spec: one usage update accumulates its increments onto the
cumulative totals and replaces the current context size. -/
def applyUsageDelta (u : TokenUsage) (d : UsageDelta) : TokenUsage :=
  ⟨u.totalTokensIn + d.dTokensIn,
   u.totalTokensOut + d.dTokensOut,
   some (u.totalCacheWrites.getD 0 + d.dCacheWrites),
   some (u.totalCacheReads.getD 0 + d.dCacheReads),
   u.totalCost + d.dCost,
   d.newContextTokens⟩

/-- The zero usage of a freshly started task, before any update. -/
def initialUsage : TokenUsage :=
  ⟨0, 0, none, none, 0, 0⟩

/-- The cumulative usage a task reports after a given sequence of updates: the
usage carried by the latest taskTokenUsageUpdated event. -/
def usageAfter (ds : List UsageDelta) : TokenUsage :=
  ds.foldl applyUsageDelta initialUsage

/-- Componentwise order on the cumulative fields of TokenUsage; absent cache
counts are read as zero. -/
abbrev TokenUsage.cumLE (u v : TokenUsage) : Prop :=
  u.totalTokensIn ≤ v.totalTokensIn ∧ u.totalTokensOut ≤ v.totalTokensOut ∧
  u.totalCacheWrites.getD 0 ≤ v.totalCacheWrites.getD 0 ∧
  u.totalCacheReads.getD 0 ≤ v.totalCacheReads.getD 0 ∧
  u.totalCost ≤ v.totalCost

/-- All counts, the cost and the context size of a TokenUsage are non-negative. -/
abbrev TokenUsage.Nonneg (u : TokenUsage) : Prop :=
  0 ≤ u.totalTokensIn ∧ 0 ≤ u.totalTokensOut ∧
  0 ≤ u.totalCacheWrites.getD 0 ∧ 0 ≤ u.totalCacheReads.getD 0 ∧
  0 ≤ u.totalCost ∧ 0 ≤ u.contextTokens

/-- A concrete sequence of two non-negative usage updates. -/
def demoDeltas : List UsageDelta :=
  [⟨1, 2, 0, 0, 1, 5⟩, ⟨3, 1, 1, 0, 2, 7⟩]

/-- A ClineMessage carries exactly the sub-kind tag selected by its type field:
an ask message has an ask tag and no say tag, a say message has a say tag and no
ask tag. -/
abbrev ClineMessage.tagConsistent {P U : Type} (m : ClineMessage P U) : Prop :=
  (m.type = MessageType.ask → (∃ a, m.ask = some a) ∧ m.say = none) ∧
  (m.type = MessageType.say → (∃ s, m.say = some s) ∧ m.ask = none)

/-- Modelled from the spec: the engine producing messages is not part of this
declaration file; per the spec a message is produced either as an ask carrying a
ClineAsk sub-kind, filling only the ask tag. -/
def mkAskMessage {P U : Type} (ts : ℚ) (a : ClineAsk) (text : Option String)
    (images : Option (List String)) (isPartial : Option Bool)
    (reasoning : Option String) (idx : Option ℚ)
    (cp : Option (List (String × U))) (ps : Option P) : ClineMessage P U :=
  ⟨ts, .ask, some a, none, text, images, isPartial, reasoning, idx, cp, ps⟩

/-- Modelled from the spec: the counterpart of mkAskMessage, producing a say
message carrying a ClineSay sub-kind and filling only the say tag. -/
def mkSayMessage {P U : Type} (ts : ℚ) (s : ClineSay) (text : Option String)
    (images : Option (List String)) (isPartial : Option Bool)
    (reasoning : Option String) (idx : Option ℚ)
    (cp : Option (List (String × U))) (ps : Option P) : ClineMessage P U :=
  ⟨ts, .say, none, some s, text, images, isPartial, reasoning, idx, cp, ps⟩

end RooCode

namespace RooCode

/-- C1: amended. The ClineSay type is a closed enumeration of exactly 24 (not 20)
string values: the enumeration `ClineSay` is complete, its tags are pairwise
distinct, and they are exactly the 24 declared literals. -/
theorem clineSay_exactly_24_values :
    allClineSay.map ClineSay.toTag = clineSayValues ∧
    clineSayValues.length = 24 ∧
    clineSayValues.Nodup ∧
    (∀ s : ClineSay, s ∈ allClineSay) := by
  refine ⟨by decide, by decide, by decide, ?_⟩
  intro s
  cases s <;> decide

/-- C1: counterexample. The ClineSay union does not have 20 string values:
it has 24. -/
theorem clineSay_not_20_values :
    clineSayValues.length ≠ 20 ∧ clineSayValues.length = 24 := by
  decide

/-- C2: amended. The ClineAsk type is a closed enumeration of exactly 12 (not 13)
string values: the enumeration `ClineAsk` is complete, its tags are pairwise
distinct, and they are exactly the 12 declared literals. -/
theorem clineAsk_exactly_12_values :
    allClineAsk.map ClineAsk.toTag = clineAskValues ∧
    clineAskValues.length = 12 ∧
    clineAskValues.Nodup ∧
    (∀ a : ClineAsk, a ∈ allClineAsk) := by
  refine ⟨by decide, by decide, by decide, ?_⟩
  intro a
  cases a <;> decide

/-- C2: counterexample. The ClineAsk union does not have 13 string values:
it has 12. -/
theorem clineAsk_not_13_values :
    clineAskValues.length ≠ 13 ∧ clineAskValues.length = 12 := by
  decide

/-- C3: the GlobalStateKey literals and the SecretKey literals are disjoint, and
ConfigurationKey is exactly their union. -/
theorem secret_and_global_keys_disjoint_union :
    (∀ k ∈ secretKeys, k ∉ globalStateKeys) ∧
    (∀ k, k ∈ configurationKeys ↔ k ∈ globalStateKeys ∨ k ∈ secretKeys) := by
  refine ⟨by decide, ?_⟩
  intro k
  simp [configurationKeys]

/-- C4: the event contract has exactly nine named events with the stated payload
tuple arity and order: message carries a single object of taskId, action (one of
created or updated) and message; taskStarted, taskPaused, taskUnpaused,
taskAskResponded and taskAborted carry a single taskId; taskSpawned carries the
pair (taskId, childTaskId); taskCompleted and taskTokenUsageUpdated carry the
pair (taskId, usage). -/
theorem rooCodeEvents_nine_events_payload_shapes :
    eventNames.length = 9 ∧ eventNames.Nodup ∧
    (∀ (P U : Type) (e : RooCodeEvent P U), e.name ∈ eventNames) ∧
    (∀ (P U : Type) (p : MessageEventPayload P U),
      (RooCodeEvent.message p).arity = 1) ∧
    (∀ a : MessageAction, a = .created ∨ a = .updated) ∧
    (∀ (P U : Type), Function.Bijective
      (fun p : MessageEventPayload P U => (p.taskId, p.action, p.message))) ∧
    (∀ (P U : Type) (tid child : String) (u : TokenUsage),
      (@RooCodeEvent.taskStarted P U tid).arity = 1 ∧
      (@RooCodeEvent.taskPaused P U tid).arity = 1 ∧
      (@RooCodeEvent.taskUnpaused P U tid).arity = 1 ∧
      (@RooCodeEvent.taskAskResponded P U tid).arity = 1 ∧
      (@RooCodeEvent.taskAborted P U tid).arity = 1 ∧
      (@RooCodeEvent.taskSpawned P U tid child).arity = 2 ∧
      (@RooCodeEvent.taskCompleted P U tid u).arity = 2 ∧
      (@RooCodeEvent.taskTokenUsageUpdated P U tid u).arity = 2) := by
  refine ⟨by decide, by decide, ?_, fun P U p => rfl, ?_, ?_, ?_⟩
  · intro P U e
    cases e <;> simp only [RooCodeEvent.name] <;> decide
  · intro a
    cases a
    · exact Or.inl rfl
    · exact Or.inr rfl
  · intro P U
    constructor
    · intro a b h
      cases a; cases b
      simpa using h
    · rintro ⟨t, a, m⟩
      exact ⟨⟨t, a, m⟩, rfl⟩
  · exact fun P U tid child u => ⟨rfl, rfl, rfl, rfl, rfl, rfl, rfl, rfl⟩

/-- C5: TokenUsage has exactly the required numeric fields totalTokensIn,
totalTokensOut, totalCost and contextTokens and exactly the optional numeric
fields totalCacheWrites and totalCacheReads, and nothing else: the record is in
bijection with the corresponding sextuple. -/
theorem tokenUsage_exact_fields :
    Function.Bijective (fun u : TokenUsage =>
      (u.totalTokensIn, u.totalTokensOut, u.totalCacheWrites, u.totalCacheReads,
       u.totalCost, u.contextTokens)) := by
  constructor
  · intro a b h
    cases a; cases b
    simpa using h
  · rintro ⟨a, b, c, d, e, f⟩
    exact ⟨⟨a, b, c, d, e, f⟩, rfl⟩

/-- C6: the seven command methods of RooCodeAPI return a Promise, with
startNewTask resolving to a string, while the five query methods return plainly:
getCurrentTaskStack a string array, isReady a boolean, getMessages a
ClineMessage array, getTokenUsage a TokenUsage and log void. -/
theorem rooCodeAPI_method_signatures :
    ("startNewTask", TSReturn.promiseOf "string") ∈ rooCodeAPIMethods ∧
    ("clearCurrentTask", TSReturn.promiseOf "void") ∈ rooCodeAPIMethods ∧
    ("cancelCurrentTask", TSReturn.promiseOf "void") ∈ rooCodeAPIMethods ∧
    ("sendMessage", TSReturn.promiseOf "void") ∈ rooCodeAPIMethods ∧
    ("pressPrimaryButton", TSReturn.promiseOf "void") ∈ rooCodeAPIMethods ∧
    ("pressSecondaryButton", TSReturn.promiseOf "void") ∈ rooCodeAPIMethods ∧
    ("setConfiguration", TSReturn.promiseOf "void") ∈ rooCodeAPIMethods ∧
    ("getCurrentTaskStack", TSReturn.plain "string[]") ∈ rooCodeAPIMethods ∧
    ("isReady", TSReturn.plain "boolean") ∈ rooCodeAPIMethods ∧
    ("getMessages", TSReturn.plain "ClineMessage[]") ∈ rooCodeAPIMethods ∧
    ("getTokenUsage", TSReturn.plain "TokenUsage") ∈ rooCodeAPIMethods ∧
    ("log", TSReturn.plain "void") ∈ rooCodeAPIMethods ∧
    (rooCodeAPIMethods.map Prod.fst).Nodup := by
  decide

/-- C9: every event attributes itself to a task: for each of the nine events the
taskId projection returns the first tuple element, or the taskId field of the
single object argument of the message event, so a consumer can always route an
event to a task. -/
theorem every_event_carries_taskId :
    ∀ (P U : Type),
    (∀ p : MessageEventPayload P U, (RooCodeEvent.message p).taskId = p.taskId) ∧
    (∀ tid : String,
      (@RooCodeEvent.taskStarted P U tid).taskId = tid ∧
      (@RooCodeEvent.taskPaused P U tid).taskId = tid ∧
      (@RooCodeEvent.taskUnpaused P U tid).taskId = tid ∧
      (@RooCodeEvent.taskAskResponded P U tid).taskId = tid ∧
      (@RooCodeEvent.taskAborted P U tid).taskId = tid) ∧
    (∀ tid child : String, (@RooCodeEvent.taskSpawned P U tid child).taskId = tid) ∧
    (∀ (tid : String) (u : TokenUsage),
      (@RooCodeEvent.taskCompleted P U tid u).taskId = tid ∧
      (@RooCodeEvent.taskTokenUsageUpdated P U tid u).taskId = tid) := by
  intro P U
  exact ⟨fun p => rfl, fun tid => ⟨rfl, rfl, rfl, rfl, rfl⟩,
    fun tid child => rfl, fun tid u => ⟨rfl, rfl⟩⟩

/-- C10: the progressStatus field of ClineMessage references the type name
ToolProgressStatus, which is neither among the types declared by the file nor
among its imports; consequently the shape of progressStatus is unconstrained by
this contract: for any type whatsoever, messages carrying any value of it are
admitted. -/
theorem toolProgressStatus_undeclared_unconstrained :
    "ToolProgressStatus" ∈ clineMessageFieldTypeRefs ∧
    "ToolProgressStatus" ∉ declaredTypeNames ∧
    "ToolProgressStatus" ∉ importedNames ∧
    (∀ (P U : Type) (x : P), ∃ m : ClineMessage P U, m.progressStatus = some x) := by
  refine ⟨by decide, by decide, by decide, ?_⟩
  intro P U x
  exact ⟨⟨0, .say, none, some .text, none, none, none, none, none, none, some x⟩, rfl⟩

theorem cumLE_refl (u : TokenUsage) : u.cumLE u :=
  ⟨le_refl _, le_refl _, le_refl _, le_refl _, le_refl _⟩

theorem cumLE_trans {u v w : TokenUsage} (h1 : u.cumLE v) (h2 : v.cumLE w) :
    u.cumLE w :=
  ⟨h1.1.trans h2.1, h1.2.1.trans h2.2.1, h1.2.2.1.trans h2.2.2.1,
   h1.2.2.2.1.trans h2.2.2.2.1, h1.2.2.2.2.trans h2.2.2.2.2⟩

theorem cumLE_applyUsageDelta (u : TokenUsage) (d : UsageDelta)
    (hd : d.Nonneg) : u.cumLE (applyUsageDelta u d) := by
  obtain ⟨h1, h2, h3, h4, h5, _⟩ := hd
  exact ⟨le_add_of_nonneg_right h1, le_add_of_nonneg_right h2,
    le_add_of_nonneg_right h3, le_add_of_nonneg_right h4,
    le_add_of_nonneg_right h5⟩

theorem nonneg_applyUsageDelta {u : TokenUsage} {d : UsageDelta}
    (hu : u.Nonneg) (hd : d.Nonneg) : (applyUsageDelta u d).Nonneg := by
  obtain ⟨g1, g2, g3, g4, g5, _⟩ := hu
  obtain ⟨h1, h2, h3, h4, h5, h6⟩ := hd
  exact ⟨add_nonneg g1 h1, add_nonneg g2 h2, add_nonneg g3 h3,
    add_nonneg g4 h4, add_nonneg g5 h5, h6⟩

theorem cumLE_foldl :
    ∀ ds : List UsageDelta, (∀ d ∈ ds, d.Nonneg) →
    ∀ u : TokenUsage, u.cumLE (ds.foldl applyUsageDelta u) := by
  intro ds
  induction ds with
  | nil => exact fun _ u => cumLE_refl u
  | cons d ds ih =>
    intro h u
    have hd : d.Nonneg := h d (List.mem_cons_self d ds)
    have hrest : ∀ x ∈ ds, x.Nonneg := fun x hx => h x (List.mem_cons_of_mem d hx)
    exact cumLE_trans (cumLE_applyUsageDelta u d hd) (ih hrest (applyUsageDelta u d))

theorem nonneg_foldl :
    ∀ ds : List UsageDelta, (∀ d ∈ ds, d.Nonneg) →
    ∀ u : TokenUsage, u.Nonneg → (ds.foldl applyUsageDelta u).Nonneg := by
  intro ds
  induction ds with
  | nil => exact fun _ _ hu => hu
  | cons d ds ih =>
    intro h u hu
    have hd : d.Nonneg := h d (List.mem_cons_self d ds)
    have hrest : ∀ x ∈ ds, x.Nonneg := fun x hx => h x (List.mem_cons_of_mem d hx)
    exact ih hrest (applyUsageDelta u d) (nonneg_applyUsageDelta hu hd)

theorem initialUsage_nonneg : initialUsage.Nonneg := by
  refine ⟨le_refl 0, le_refl 0, ?_, ?_, le_refl 0, le_refl 0⟩ <;>
    simp [initialUsage]

/-- C7: spec-modelled. Across any sequence of successive taskTokenUsageUpdated
events of a task, modelled as cumulative accumulation of non-negative update
increments, the reported TokenUsage values are monotonically non-decreasing in
the token counts, cache counts and cost, and all reported counts, the cost and
the context size are non-negative. -/
theorem tokenUsage_trace_monotone_nonneg (ds : List UsageDelta)
    (h : ∀ d ∈ ds, d.Nonneg) (i j : ℕ) (hij : i ≤ j) :
    (usageAfter (ds.take i)).cumLE (usageAfter (ds.take j)) ∧
    (usageAfter (ds.take j)).Nonneg := by
  have htake : ds.take j = ds.take i ++ (ds.drop i).take (j - i) := by
    rw [← List.take_add]
    congr 1
    omega
  have hseg : ∀ d ∈ (ds.drop i).take (j - i), d.Nonneg := fun d hd =>
    h d (List.drop_subset i ds (List.take_subset _ _ hd))
  constructor
  · rw [usageAfter, usageAfter, htake, List.foldl_append]
    exact cumLE_foldl _ hseg _
  · exact nonneg_foldl (ds.take j) (fun d hd => h d (List.take_subset _ _ hd))
      initialUsage initialUsage_nonneg

/-- C7 witness: the monotonicity and non-negativity theorem applied to a
concrete two-step update sequence. -/
theorem tokenUsage_trace_monotone_nonneg_witness :
    (usageAfter (demoDeltas.take 1)).cumLE (usageAfter (demoDeltas.take 2)) ∧
    (usageAfter (demoDeltas.take 2)).Nonneg :=
  tokenUsage_trace_monotone_nonneg demoDeltas (by decide) 1 2 (by decide)

/-- C8: spec-modelled. Every message produced by the modelled producers carries
exactly the sub-kind tag selected by its type field: an ask message carries an
ask sub-kind and no say sub-kind, and a say message carries a say sub-kind and
no ask sub-kind. -/
theorem clineMessage_exactly_one_tag :
    ∀ (P U : Type) (ts : ℚ) (a : ClineAsk) (s : ClineSay) (text : Option String)
      (images : Option (List String)) (isPartial : Option Bool)
      (reasoning : Option String) (idx : Option ℚ)
      (cp : Option (List (String × U))) (ps : Option P),
    (mkAskMessage ts a text images isPartial reasoning idx cp ps).tagConsistent ∧
    (mkSayMessage ts s text images isPartial reasoning idx cp ps).tagConsistent := by
  intro P U ts a s text images isPartial reasoning idx cp ps
  constructor
  · exact ⟨fun _ => ⟨⟨a, rfl⟩, rfl⟩, fun h => MessageType.noConfusion h⟩
  · exact ⟨fun h => MessageType.noConfusion h, fun _ => ⟨⟨s, rfl⟩, rfl⟩⟩

end RooCode
